import Mathlib

/-!
Verification development for the project-scaffolding utility
(`setup_project_structure.py`) and the database-access helper
(`src/database_connection.py`) of the customer-shopping-analytics
repository.

The filesystem is modelled as a record of existing directories and an
association list from relative paths (lists of components, resolved
against the materialization root) to file data.  Filesystem
operations mirror the Python `pathlib` calls used by the source:
`mkdir(parents=True, exist_ok=True)`, `Path.touch`, `Path.write_text`
and `open(path, "w"/"wb")`.  Operations that raise in Python when a
parent directory is missing (touch, write) are modelled as fallible
(`Except`), so a run of the materializer only succeeds if every
directory exists before a file is written into it.
-/

/-- A relative path under the materialization root, as a list of components. -/
abbrev FPath := List String

/-- One cell of the minimal Jupyter notebook template (`nb_skeleton` in the
source).  The `metadata` field of the source is an empty dictionary and is
omitted. -/
structure NbCell where
  cell_type : String
  source : List String
deriving DecidableEq, Repr

/-- The minimal Jupyter notebook document (`nb_skeleton` in the source). -/
structure NbDoc where
  nbformat : Nat
  nbformat_minor : Nat
  cells : List NbCell
deriving DecidableEq, Repr

/-- Contents of a file on the modelled filesystem: text written with mode
"w", bytes written with mode "wb" (all byte payloads in the source are
ASCII, so they are carried as strings), or the serialized form of a
notebook document (`json.dumps(nb_skeleton, indent=2)` in the source; the
serialization of the fixed skeleton is represented structurally). -/
inductive FileData where
  | text : String → FileData
  | bin : String → FileData
  | nb : NbDoc → FileData
deriving DecidableEq, Repr

/-- Whether `stat().st_size` of a file is zero.  A serialized notebook
document is never the empty string, so its size is never zero. -/
def sizeIsZero : FileData → Bool
  | FileData.text s => s.data.isEmpty
  | FileData.bin b => b.data.isEmpty
  | FileData.nb _ => false

/-- The modelled filesystem: the set of directories that exist (the root
itself, `[]`, always exists) and an association list of files. -/
structure FS where
  dirs : List FPath
  files : List (FPath × FileData)
deriving DecidableEq, Repr

/-- The empty materialization root: the root directory exists, nothing else. -/
def emptyFS : FS := ⟨[], []⟩

/-- Does path `p` exist as a directory? -/
def isDir (fs : FS) (p : FPath) : Bool := p.isEmpty || fs.dirs.contains p

/-- The data of the file at `p`, when `p` exists as a file. -/
def lookupFile (fs : FS) (p : FPath) : Option FileData :=
  (fs.files.find? (fun e => e.1 == p)).map (fun e => e.2)

/-- Does path `p` exist as a file? -/
def isFile (fs : FS) (p : FPath) : Bool := (lookupFile fs p).isSome

/-- Does path `p` exist at all (`Path.exists()` in Python)? -/
def pathExists (fs : FS) (p : FPath) : Bool := isFile fs p || isDir fs p

/-- `stat().st_size == 0` for the file at `p` (directories have nonzero
size on the platforms the script targets). -/
def statSizeZero (fs : FS) (p : FPath) : Bool :=
  match lookupFile fs p with
  | some d => sizeIsZero d
  | none => false

/-- Create or truncate-and-overwrite the file at `p` with data `d`. -/
def setFile (fs : FS) (p : FPath) (d : FileData) : FS :=
  { fs with files := (p, d) :: fs.files.filter (fun e => !(e.1 == p)) }

/-- `Path.parent` for a relative path. -/
def parentOf (p : FPath) : FPath := p.dropLast

/-- All nonempty prefixes of a path, shortest first, ending with the path
itself. -/
def prefixesOf (p : FPath) : List FPath :=
  (List.range p.length).map (fun i => p.take (i + 1))

/-- `path.mkdir(parents=True, exist_ok=True)`: creates the directory and
all missing ancestors; an already existing directory is not an error, but
a file standing where a directory is needed raises. -/
def mkdirParents (fs : FS) (p : FPath) : Except String FS :=
  if (prefixesOf p).any (fun q => isFile fs q) then
    Except.error "FileExistsError"
  else
    Except.ok { fs with
      dirs := fs.dirs ++ (prefixesOf p).filter (fun q => !(fs.dirs.contains q)) }

/-- `Path.touch()`: requires the parent directory to exist; creates an
empty file if the path does not exist; an existing file (or directory) is
left entirely unchanged (only its mtime is updated). -/
def touch (fs : FS) (p : FPath) : Except String FS :=
  if isDir fs p then Except.ok fs
  else if !(isDir fs (parentOf p)) then Except.error "FileNotFoundError"
  else if isFile fs p then Except.ok fs
  else Except.ok (setFile fs p (FileData.text ""))

/-- `open(p, "w"/"wb")` followed by a full write, or `Path.write_text`:
requires the parent directory to exist, truncates any previous content. -/
def writeFile (fs : FS) (p : FPath) (d : FileData) : Except String FS :=
  if isDir fs p then Except.error "IsADirectoryError"
  else if !(isDir fs (parentOf p)) then Except.error "FileNotFoundError"
  else Except.ok (setFile fs p d)

/-- `create_file` from the source: make the parent directories, then open
the file in mode "w"/"wb" and write the content. -/
def create_file (fs : FS) (p : FPath) (d : FileData) : Except String FS := do
  let fs1 ← mkdirParents fs (parentOf p)
  writeFile fs1 p d

/-- Split a relative path on the slashes, mirroring how `ROOT / rel_path`
resolves the slash-separated keys of the structure table. -/
def splitPathAux : List Char → List Char → List String
  | [], acc => [String.mk acc.reverse]
  | c :: cs, acc =>
      if c = '/' then String.mk acc.reverse :: splitPathAux cs []
      else splitPathAux cs (c :: acc)

/-- Path splitting for the descriptor keys. -/
def splitPath (s : String) : FPath := splitPathAux s.data []

/-- Content descriptor for one file inside a directory entry of the
structure table: `None`, the string "notebook", a bytes payload, or
literal text (matched in that order by `main`). -/
inductive FContent where
  | none
  | notebook
  | text : String → FContent
  | bin : String → FContent
deriving DecidableEq, Repr

/-- Value of one top-level entry of the structure table: a nested mapping
(directory with named files), a bytes payload, or literal text. -/
inductive SValue where
  | dir : List (String × FContent) → SValue
  | text : String → SValue
  | bin : String → SValue
deriving DecidableEq, Repr

/-- `nb_skeleton` from the source: nbformat 4.5, one markdown cell. -/
def nb_skeleton : NbDoc :=
  { nbformat := 4
    nbformat_minor := 5
    cells := [{ cell_type := "markdown"
                source := ["# Notebook\n\nThis is a generated notebook skeleton. Replace with your content."] }] }

/-- `raw_csv_header` from the source. -/
def raw_csv_header : String :=
  "customer_id,visit_date,product_id,category,quantity,price,total_spent\n"

/-- `cleaned_csv_header` from the source. -/
def cleaned_csv_header : String :=
  "customer_id,visit_date,product_id,category,quantity,price,total_spent,cleaned_flag\n"

/-- The `structure` table of the source, in dictionary insertion order. -/
def structureTable : List (String × SValue) := [
  ("data/raw", SValue.dir [("customer_shopping_behavior.csv", FContent.none)]),
  ("data/processed", SValue.dir [("customer_cleaned.csv", FContent.none)]),
  ("notebooks", SValue.dir [
    ("01_data_cleaning_and_eda.ipynb", FContent.notebook),
    ("02_advanced_analytics.ipynb", FContent.notebook),
    ("03_predictive_modeling.ipynb", FContent.notebook),
    ("04_statistical_analysis.ipynb", FContent.notebook)]),
  ("sql", SValue.dir [
    ("01_schema_creation.sql", FContent.text "-- SQL: schema creation\n-- Add CREATE TABLE statements here\n"),
    ("02_basic_queries.sql", FContent.text "-- Basic queries for EDA and reporting\n"),
    ("03_advanced_business_queries.sql", FContent.text "-- Joins, window functions, cohort analysis queries\n"),
    ("04_insights_queries.sql", FContent.text "-- Business insights queries\n")]),
  ("powerbi/screenshots", SValue.dir []),
  ("powerbi/customer_behavior_dashboard.pbix", SValue.bin "%PDF-1.4\n%placeholder pbix-like file\n"),
  ("reports", SValue.dir [
    ("technical_report.md", FContent.text "# Technical report\n\nDescribe methods, data pipeline, models, and results.\n"),
    ("executive_summary.md", FContent.text "# Executive summary\n\nHigh level summary for business stakeholders.\n"),
    ("presentation.pdf", FContent.bin "%PDF-1.4\n%placeholder PDF presentation\n")]),
  ("src", SValue.dir [
    ("__init__.py", FContent.text "# src package\n"),
    ("config.py", FContent.text "# Configuration variables\nDB_PATH = \x27data/processed/customer_cleaned.db\x27\n"),
    ("database_connection.py", FContent.text "# Simple sqlite database connection helper\nimport sqlite3\nfrom pathlib import Path\n\nDB_FILE = Path(__file__).resolve().parents[1] / \x27data\x27 / \x27processed\x27 / \x27customer_cleaned.db\x27\n\ndef get_connection(db_path: str = None):\n    \"\"\"Return a sqlite3 connection. If db_path is None, a file in data/processed will be used.\"\"\"\n    path = DB_FILE if db_path is None else Path(db_path)\n    path.parent.mkdir(parents=True, exist_ok=True)\n    conn = sqlite3.connect(str(path))\n    return conn\n")]),
  (".gitignore", SValue.text "# Python artifacts\n__pycache__/\n*.pyc\n*.pyo\n*.pyd\nenv/\n.venv/\nvenv/\n.Python\n# Jupyter\n.ipynb_checkpoints/\n# Data and outputs\ndata/raw/*\n!data/raw/customer_shopping_behavior.csv\ndata/processed/*\n# VSCode\n.vscode/\n"),
  ("requirements.txt", SValue.text "pandas\nnumpy\nscikit-learn\nmatplotlib\nnotebook\n"),
  ("README.md", SValue.text "# customer-shopping-analytics\n\nProject skeleton for customer shopping analytics.\n\n## Structure\nSee folders for data, notebooks, SQL, reports and src.\n")]

/-- Process the files of one directory entry, in order: `None` becomes a
`touch`, "notebook" a `write_text` of the serialized skeleton, bytes a
binary `create_file`, and anything else a text `create_file` (mirrors the
inner loop of `main`). -/
def runFiles (target : FPath) : FS → List (String × FContent) → Except String FS
  | fs, [] => Except.ok fs
  | fs, (fname, c) :: rest => do
      let fp := target ++ [fname]
      let fs1 ← (match c with
        | FContent.none => touch fs fp
        | FContent.notebook => writeFile fs fp (FileData.nb nb_skeleton)
        | FContent.text s => create_file fs fp (FileData.text s)
        | FContent.bin b => create_file fs fp (FileData.bin b))
      runFiles target fs1 rest

/-- Process one top-level entry of the structure table (the body of the
outer loop of `main`). -/
def runEntry (fs : FS) : String × SValue → Except String FS
  | (relPath, v) =>
    let target := splitPath relPath
    match v with
    | SValue.dir entries => do
        let fs1 ← mkdirParents fs target
        runFiles target fs1 entries
    | SValue.bin b => create_file fs target (FileData.bin b)
    | SValue.text s => do
        let fs1 ← mkdirParents fs (parentOf target)
        create_file fs1 target (FileData.text s)

/-- The outer loop of `main` over the structure table. -/
def runTable : FS → List (String × SValue) → Except String FS
  | fs, [] => Except.ok fs
  | fs, e :: rest => do
      let fs1 ← runEntry fs e
      runTable fs1 rest

/-- Relative path of the raw dataset placeholder. -/
def rawCsvPath : FPath := ["data", "raw", "customer_shopping_behavior.csv"]

/-- Relative path of the processed dataset placeholder. -/
def processedCsvPath : FPath := ["data", "processed", "customer_cleaned.csv"]

/-- Relative path of the package marker file. -/
def initPyPath : FPath := ["src", "__init__.py"]

/-- Header-write step for the raw CSV: `if not raw_csv.exists() or
raw_csv.stat().st_size == 0: create_file(raw_csv, raw_csv_header)`. -/
def rawHeaderStep (fs : FS) : Except String FS :=
  if !(pathExists fs rawCsvPath) || statSizeZero fs rawCsvPath then
    create_file fs rawCsvPath (FileData.text raw_csv_header)
  else Except.ok fs

/-- Header-write step for the processed CSV. -/
def processedHeaderStep (fs : FS) : Except String FS :=
  if !(pathExists fs processedCsvPath) || statSizeZero fs processedCsvPath then
    create_file fs processedCsvPath (FileData.text cleaned_csv_header)
  else Except.ok fs

/-- Final step of `main`: `if not init_py.exists(): create_file(init_py,
"# src package\n")`. -/
def initPyStep (fs : FS) : Except String FS :=
  if !(pathExists fs initPyPath) then
    create_file fs initPyPath (FileData.text "# src package\n")
  else Except.ok fs

/-- `main()` from the source: the loop over the structure table, then the
two guarded CSV header writes, then the guarded package-marker write. -/
def mainRun (fs : FS) : Except String FS := do
  let fs1 ← runTable fs structureTable
  let fs2 ← rawHeaderStep fs1
  let fs3 ← processedHeaderStep fs2
  initPyStep fs3

/-- The `if __name__ == "__main__"` wrapper: `main()` under a catch-all
`except Exception` that prints a fixed prefix followed by the exception
and exits with code 1; falling off the end of the script exits with
code 0.  Returns the exit code and the lines printed by the handler. -/
def runScript (fs : FS) : Nat × List String :=
  match mainRun fs with
  | Except.ok _ => (0, [])
  | Except.error e => (1, ["❌ Error while creating project: " ++ e])

/-- The result filesystem of a successful run (the empty filesystem is
never reached on the runs considered below). -/
def extractOk (x : Except String FS) : FS :=
  match x with
  | Except.ok fs => fs
  | Except.error _ => emptyFS

/-- State of the tree after the table loop of the first run. -/
def fsMid : FS := extractOk (runTable emptyFS structureTable)

/-- State of the tree after the first full run from an empty root. -/
def fsAfterFirstRun : FS := extractOk (mainRun emptyFS)

/-- State of the tree after a second full run. -/
def fsAfterSecondRun : FS := extractOk (mainRun fsAfterFirstRun)

/-- All relative paths listed in the structure table: each top-level key,
and each file of a nested mapping. -/
def descriptorPaths : List FPath :=
  structureTable.flatMap (fun e =>
    match e.2 with
    | SValue.dir entries =>
        splitPath e.1 :: entries.map (fun f => splitPath e.1 ++ [f.1])
    | _ => [splitPath e.1])

/-- Paths of the notebook files of the structure table. -/
def notebookPaths : List FPath :=
  structureTable.flatMap (fun e =>
    match e.2 with
    | SValue.dir entries =>
        entries.filterMap (fun f =>
          match f.2 with
          | FContent.notebook => some (splitPath e.1 ++ [f.1])
          | _ => Option.none)
    | _ => [])

/-- The fixed content a file content-descriptor writes, if it writes one:
a `None` descriptor only touches the file and fixes no content. -/
def fileFixed : FContent → Option FileData
  | FContent.none => Option.none
  | FContent.notebook => some (FileData.nb nb_skeleton)
  | FContent.text s => some (FileData.text s)
  | FContent.bin b => some (FileData.bin b)

/-- The last fixed content written to path `q` by the files of a directory
entry with target `t`, if any. -/
def filesLastFixed (t : FPath) : List (String × FContent) → FPath → Option FileData
  | [], _ => Option.none
  | (fname, c) :: rest, q =>
      match filesLastFixed t rest q with
      | some d => some d
      | Option.none => if t ++ [fname] == q then fileFixed c else Option.none

/-- The last fixed content a top-level entry writes to path `q`, if any. -/
def entryLastFixed : String × SValue → FPath → Option FileData
  | (relPath, SValue.dir entries), q => filesLastFixed (splitPath relPath) entries q
  | (relPath, SValue.text s), q =>
      if splitPath relPath == q then some (FileData.text s) else Option.none
  | (relPath, SValue.bin b), q =>
      if splitPath relPath == q then some (FileData.bin b) else Option.none

/-- The last fixed content the table loop writes to path `q`, if any:
later entries win over earlier ones. -/
def tableLastFixed : List (String × SValue) → FPath → Option FileData
  | [], _ => Option.none
  | e :: rest, q =>
      match tableLastFixed rest q with
      | some d => some d
      | Option.none => entryLastFixed e q

/-!
The database-access helper (`src/database_connection.py`).

The external collaborators (SQLAlchemy's `create_engine`, pandas'
`read_sql` / `DataFrame.to_sql`) are modelled as an explicit environment
of fallible operations; `Engine.dispose` does not report failures and is
modelled as total.  Each method of the helper returns its updated object
state, its Python return value, and the lines it prints.
-/

/-- A SQLAlchemy engine, abstracted to the connection string it was
created from. -/
structure Engine where
  connUrl : String
deriving DecidableEq, Repr

/-- A pandas DataFrame, abstracted to its list of rows. -/
structure DataFrame where
  rows : List (List String)
deriving DecidableEq, Repr

/-- The behavior of the external database/dataframe libraries: engine
creation, `pd.read_sql`, and `DataFrame.to_sql` may fail with an
exception message; `Engine.dispose` is total. -/
structure DBEnv where
  create_engine : String → Except String Engine
  read_sql : String → Option Engine → Except String DataFrame
  to_sql : DataFrame → String → Option Engine → String → Except String Unit
  dispose : Engine → Unit

/-- The `DatabaseConnection` object state: the five constructor fields
and the `engine` slot (initially `None`). -/
structure DatabaseConnection where
  host : String
  user : String
  password : String
  database : String
  port : Nat
  engine : Option Engine
deriving Repr

/-- `DatabaseConnection.__init__` (the Python defaults are
host='localhost', user='root', password='your_password',
database='customer_analytics', port=3306). -/
def DatabaseConnection.init (host user password database : String) (port : Nat) :
    DatabaseConnection :=
  ⟨host, user, password, database, port, Option.none⟩

/-- Decimal digits of a natural number (structural recursion on a fuel
argument so that it evaluates inside the kernel). -/
def natDigitsAux : Nat → Nat → List Char
  | 0, _ => []
  | fuel + 1, n =>
      if n < 10 then [Char.ofNat (48 + n)]
      else natDigitsAux fuel (n / 10) ++ [Char.ofNat (48 + n % 10)]

/-- Decimal rendering of a natural number (Python `str`). -/
def natStr (n : Nat) : String := String.mk (natDigitsAux (n + 1) n)

/-- Insert thousands separators into a reversed digit list (Python format
spec `:,`). -/
def commaAux : Nat → List Char → List Char
  | _, [] => []
  | i, c :: cs =>
      if i % 3 = 0 && i ≠ 0 then c :: ',' :: commaAux (i + 1) cs
      else c :: commaAux (i + 1) cs

/-- Python `f"{n:,}"` for a natural number. -/
def commaFmt (n : Nat) : String :=
  String.mk ((commaAux 0 (natDigitsAux (n + 1) n).reverse).reverse)

/-- Characters `urllib.parse.quote` never encodes (letters, digits, and
`_.-~`). -/
def quoteSafe (c : Char) : Bool :=
  c.isAlpha || c.isDigit || c = '_' || c = '.' || c = '-' || c = '~'

/-- Hexadecimal digit (uppercase), for percent-encoding. -/
def hexDigit (n : Nat) : Char :=
  if n < 10 then Char.ofNat (48 + n) else Char.ofNat (65 + n - 10)

/-- UTF-8 bytes of a character. -/
def utf8Bytes (c : Char) : List Nat :=
  let n := c.toNat
  if n < 128 then [n]
  else if n < 2048 then [192 + n / 64, 128 + n % 64]
  else if n < 65536 then [224 + n / 4096, 128 + (n / 64) % 64, 128 + n % 64]
  else [240 + n / 262144, 128 + (n / 4096) % 64, 128 + (n / 64) % 64, 128 + n % 64]

/-- `urllib.parse.quote_plus`: spaces become `+`, safe characters pass
through, every other character is percent-encoded byte by byte. -/
def quote_plus (s : String) : String :=
  String.mk (s.data.flatMap (fun c =>
    if c = ' ' then ['+']
    else if quoteSafe c then [c]
    else (utf8Bytes c).flatMap (fun b => ['%', hexDigit (b / 16), hexDigit (b % 16)])))

/-- The connection string `create_connection` hands to `create_engine`:
it embeds the percent-encoded password. -/
def connString (db : DatabaseConnection) : String :=
  "mysql+pymysql://" ++ db.user ++ ":" ++ quote_plus db.password ++ "@" ++
    db.host ++ ":" ++ natStr db.port ++ "/" ++ db.database

/-- The connection-string preview `create_connection` prints: the
password position holds the literal `<hidden>`. -/
def connPreview (db : DatabaseConnection) : String :=
  "\n🔗 Connection string preview: mysql+pymysql://" ++ db.user ++ ":<hidden>@" ++
    db.host ++ ":" ++ natStr db.port ++ "/" ++ db.database

/-- `DatabaseConnection.create_connection`: build the connection string,
print the preview, create the engine; on success store and return it, on
failure print the error and return `None` (the `engine` field keeps its
previous value). -/
def create_connection (env : DBEnv) (db : DatabaseConnection) :
    DatabaseConnection × Option Engine × List String :=
  match env.create_engine (connString db) with
  | Except.ok eng =>
      ({ db with engine := some eng }, some eng,
        [connPreview db, "✅ Connected to MySQL database: " ++ db.database])
  | Except.error e =>
      (db, Option.none,
        [connPreview db, "❌ Error connecting to database: " ++ e])

/-- The `if self.engine is None: self.create_connection()` preamble shared
by `load_dataframe_to_db` and `execute_query` (the return value of
`create_connection` is discarded; its prints are kept). -/
def ensureEngine (env : DBEnv) (db : DatabaseConnection) :
    DatabaseConnection × List String :=
  match db.engine with
  | some _ => (db, [])
  | Option.none =>
      let r := create_connection env db
      (r.1, r.2.2)

/-- `DatabaseConnection.load_dataframe_to_db`: `df.to_sql(...)` under a
catch-all; on success print the success line and the comma-formatted row
count, on failure print the error (nothing is returned either way). -/
def load_dataframe_to_db (env : DBEnv) (db : DatabaseConnection)
    (df : DataFrame) (table_name : String) (if_exists : String) :
    DatabaseConnection × List String :=
  let pre := ensureEngine env db
  match env.to_sql df table_name pre.1.engine if_exists with
  | Except.ok _ =>
      (pre.1, pre.2 ++
        ["✅ Data loaded to table \x27" ++ table_name ++ "\x27 successfully!",
         "   Rows loaded: " ++ commaFmt df.rows.length])
  | Except.error e =>
      (pre.1, pre.2 ++ ["❌ Error loading data: " ++ e])

/-- `DatabaseConnection.execute_query`: `pd.read_sql(query, engine)` under
a catch-all; on failure print the error and return an empty DataFrame. -/
def execute_query (env : DBEnv) (db : DatabaseConnection) (query : String) :
    DatabaseConnection × DataFrame × List String :=
  let pre := ensureEngine env db
  match env.read_sql query pre.1.engine with
  | Except.ok df => (pre.1, df, pre.2)
  | Except.error e =>
      (pre.1, DataFrame.mk [], pre.2 ++ ["❌ Error executing query: " ++ e])

/-- `DatabaseConnection.close_connection`: dispose and print only when an
engine is present (`if self.engine:`); the `engine` field is not cleared. -/
def close_connection (env : DBEnv) (db : DatabaseConnection) :
    DatabaseConnection × List String :=
  match db.engine with
  | some eng =>
      let _ := env.dispose eng
      (db, ["✅ Database connection closed"])
  | Option.none => (db, [])

/-!
Basic lemmas about the filesystem operations.
-/

theorem exbind_ok {α β : Type} {x : Except String α} {f : α → Except String β} {b : β}
    (h : (x >>= f) = Except.ok b) : ∃ a, x = Except.ok a ∧ f a = Except.ok b := by
  cases x with
  | ok a => exact ⟨a, rfl, h⟩
  | error e => exact absurd h (by simp [Bind.bind, Except.bind])

theorem find?_filter_ne (l : List (FPath × FileData)) (p q : FPath) (hpq : q ≠ p) :
    (l.filter (fun e => !(e.1 == p))).find? (fun e => e.1 == q) =
      l.find? (fun e => e.1 == q) := by
  induction l with
  | nil => rfl
  | cons e rest ih =>
      by_cases h1 : e.1 = p
      · have hq : (e.1 == q) = false := by
          simp [h1]
          exact fun hh => hpq hh.symm
        have hp : (!(e.1 == p)) = false := by simp [h1]
        simp [List.filter_cons, List.find?_cons, hp, hq, ih]
      · have hp : (!(e.1 == p)) = true := by simp [h1]
        by_cases h2 : e.1 = q
        · have hq : (e.1 == q) = true := by simp [h2]
          simp [List.filter_cons, List.find?_cons, hp, hq]
        · have hq : (e.1 == q) = false := by simp [h2]
          simp [List.filter_cons, List.find?_cons, hp, hq, ih]

theorem lookupFile_setFile (fs : FS) (p : FPath) (d : FileData) (q : FPath) :
    lookupFile (setFile fs p d) q = if q = p then some d else lookupFile fs q := by
  by_cases h : q = p
  · subst h
    rw [if_pos rfl]
    show ((((q, d) :: fs.files.filter (fun e => !(e.1 == q))).find?
      (fun e => e.1 == q)).map (fun e => e.2)) = some d
    simp [List.find?_cons]
  · rw [if_neg h]
    show ((((p, d) :: fs.files.filter (fun e => !(e.1 == p))).find?
      (fun e => e.1 == q)).map (fun e => e.2)) = lookupFile fs q
    have hq : (p == q) = false := by
      simp
      exact fun hh => h hh.symm
    simp [List.find?_cons, hq, find?_filter_ne fs.files p q h]
    rfl

theorem mkdirParents_files {fs fs' : FS} {p : FPath}
    (h : mkdirParents fs p = Except.ok fs') : fs'.files = fs.files := by
  unfold mkdirParents at h
  split at h
  · exact absurd h (by simp)
  · cases h
    rfl

theorem mkdirParents_lookup {fs fs' : FS} {p : FPath}
    (h : mkdirParents fs p = Except.ok fs') (q : FPath) :
    lookupFile fs' q = lookupFile fs q := by
  unfold lookupFile
  rw [mkdirParents_files h]

theorem touch_of_isFile {fs fs' : FS} {p : FPath}
    (hf : isFile fs p = true) (h : touch fs p = Except.ok fs') : fs' = fs := by
  unfold touch at h
  by_cases h1 : isDir fs p = true
  · rw [if_pos h1] at h
    simp at h
    exact h.symm
  · rw [if_neg h1] at h
    by_cases h2 : (!(isDir fs (parentOf p))) = true
    · rw [if_pos h2] at h
      simp at h
    · rw [if_neg h2, if_pos hf] at h
      simp at h
      exact h.symm

theorem touch_lookup_ne {fs fs' : FS} {p : FPath}
    (h : touch fs p = Except.ok fs') (q : FPath) (hne : q ≠ p) :
    lookupFile fs' q = lookupFile fs q := by
  unfold touch at h
  by_cases h1 : isDir fs p = true
  · rw [if_pos h1] at h
    simp at h
    rw [h]
  · rw [if_neg h1] at h
    by_cases h2 : (!(isDir fs (parentOf p))) = true
    · rw [if_pos h2] at h
      simp at h
    · rw [if_neg h2] at h
      by_cases h3 : isFile fs p = true
      · rw [if_pos h3] at h
        simp at h
        rw [h]
      · rw [if_neg h3] at h
        simp at h
        rw [← h, lookupFile_setFile, if_neg hne]

theorem writeFile_ok {fs fs' : FS} {p : FPath} {d : FileData}
    (h : writeFile fs p d = Except.ok fs') : fs' = setFile fs p d := by
  unfold writeFile at h
  by_cases h1 : isDir fs p = true
  · rw [if_pos h1] at h
    simp at h
  · rw [if_neg h1] at h
    by_cases h2 : (!(isDir fs (parentOf p))) = true
    · rw [if_pos h2] at h
      simp at h
    · rw [if_neg h2] at h
      simp at h
      exact h.symm

theorem writeFile_lookup_self {fs fs' : FS} {p : FPath} {d : FileData}
    (h : writeFile fs p d = Except.ok fs') : lookupFile fs' p = some d := by
  rw [writeFile_ok h, lookupFile_setFile, if_pos rfl]

theorem writeFile_lookup_ne {fs fs' : FS} {p : FPath} {d : FileData}
    (h : writeFile fs p d = Except.ok fs') (q : FPath) (hne : q ≠ p) :
    lookupFile fs' q = lookupFile fs q := by
  rw [writeFile_ok h, lookupFile_setFile, if_neg hne]

theorem create_file_lookup_self {fs fs' : FS} {p : FPath} {d : FileData}
    (h : create_file fs p d = Except.ok fs') : lookupFile fs' p = some d := by
  obtain ⟨fs1, h1, h2⟩ := exbind_ok h
  exact writeFile_lookup_self h2

theorem create_file_lookup_ne {fs fs' : FS} {p : FPath} {d : FileData}
    (h : create_file fs p d = Except.ok fs') (q : FPath) (hne : q ≠ p) :
    lookupFile fs' q = lookupFile fs q := by
  obtain ⟨fs1, h1, h2⟩ := exbind_ok h
  rw [writeFile_lookup_ne h2 q hne, mkdirParents_lookup h1]

/-!
Preservation and fixed-content lemmas for the materializer loops: a file
that exists is preserved by every part of the run that has no fixed write
to it (touches never truncate), and the last fixed write to a path
determines its final content.
-/

theorem runFiles_preserve {t : FPath} {es : List (String × FContent)}
    {fs fs' : FS} {q : FPath} {d : FileData}
    (h : runFiles t fs es = Except.ok fs')
    (hnf : filesLastFixed t es q = Option.none)
    (hq : lookupFile fs q = some d) :
    lookupFile fs' q = some d := by
  induction es generalizing fs with
  | nil =>
      unfold runFiles at h
      simp at h
      rw [← h]
      exact hq
  | cons e rest ih =>
      obtain ⟨fname, c⟩ := e
      unfold runFiles at h
      obtain ⟨fs1, h1, h2⟩ := exbind_ok h
      have hrest : filesLastFixed t rest q = Option.none := by
        unfold filesLastFixed at hnf
        revert hnf
        cases filesLastFixed t rest q
        · intro _; rfl
        · intro hh; exact absurd hh (by simp)
      have hhead : (if t ++ [fname] == q then fileFixed c else Option.none)
          = Option.none := by
        unfold filesLastFixed at hnf
        rw [hrest] at hnf
        exact hnf
      have hq1 : lookupFile fs1 q = some d := by
        by_cases hp : t ++ [fname] = q
        · have : fileFixed c = Option.none := by
            rw [← hhead, if_pos (by simp [hp])]
          cases c with
          | none =>
              have hf : isFile fs (t ++ [fname]) = true := by
                unfold isFile
                rw [hp, hq]
                rfl
              rw [touch_of_isFile hf h1]
              exact hq
          | notebook => exact absurd this (by simp [fileFixed])
          | text s => exact absurd this (by simp [fileFixed])
          | bin b => exact absurd this (by simp [fileFixed])
        · have hne : q ≠ t ++ [fname] := fun hh => hp hh.symm
          cases c with
          | none => rw [touch_lookup_ne h1 q hne]; exact hq
          | notebook => rw [writeFile_lookup_ne h1 q hne]; exact hq
          | text s => rw [create_file_lookup_ne h1 q hne]; exact hq
          | bin b => rw [create_file_lookup_ne h1 q hne]; exact hq
      exact ih h2 hrest hq1

theorem runFiles_fixed {t : FPath} {es : List (String × FContent)}
    {fs fs' : FS} {q : FPath} {c : FileData}
    (h : runFiles t fs es = Except.ok fs')
    (hf : filesLastFixed t es q = some c) :
    lookupFile fs' q = some c := by
  induction es generalizing fs with
  | nil => exact absurd hf (by simp [filesLastFixed])
  | cons e rest ih =>
      obtain ⟨fname, c0⟩ := e
      unfold runFiles at h
      obtain ⟨fs1, h1, h2⟩ := exbind_ok h
      by_cases hrest : ∃ d, filesLastFixed t rest q = some d
      · obtain ⟨d, hd⟩ := hrest
        have : d = c := by
          unfold filesLastFixed at hf
          rw [hd] at hf
          exact (Option.some.inj hf)
        subst this
        exact ih h2 hd
      · have hnone : filesLastFixed t rest q = Option.none := by
          revert hrest
          cases filesLastFixed t rest q
          · intro _; rfl
          · intro hh; exact absurd ⟨_, rfl⟩ hh
        have hhead : (if t ++ [fname] == q then fileFixed c0 else Option.none)
            = some c := by
          unfold filesLastFixed at hf
          rw [hnone] at hf
          exact hf
        have hpq : t ++ [fname] = q := by
          by_cases hp : t ++ [fname] = q
          · exact hp
          · rw [if_neg (by simp [hp])] at hhead
            exact absurd hhead (by simp)
        have hcc : fileFixed c0 = some c := by
          rw [if_pos (by simp [hpq])] at hhead
          exact hhead
        have hq1 : lookupFile fs1 q = some c := by
          subst hpq
          cases c0 with
          | none => exact absurd hcc (by simp [fileFixed])
          | notebook =>
              rw [writeFile_lookup_self h1]
              exact hcc
          | text s =>
              rw [create_file_lookup_self h1]
              exact hcc
          | bin b =>
              rw [create_file_lookup_self h1]
              exact hcc
        exact runFiles_preserve h2 hnone hq1

theorem runEntry_preserve {e : String × SValue} {fs fs' : FS} {q : FPath} {d : FileData}
    (h : runEntry fs e = Except.ok fs')
    (hnf : entryLastFixed e q = Option.none)
    (hq : lookupFile fs q = some d) :
    lookupFile fs' q = some d := by
  obtain ⟨relPath, v⟩ := e
  cases v with
  | dir entries =>
      unfold runEntry at h
      obtain ⟨fs1, h1, h2⟩ := exbind_ok h
      have hq1 : lookupFile fs1 q = some d := by
        rw [mkdirParents_lookup h1]
        exact hq
      exact runFiles_preserve h2 hnf hq1
  | text s =>
      unfold runEntry at h
      obtain ⟨fs1, h1, h2⟩ := exbind_ok h
      have hr : (if (splitPath relPath == q) = true then some (FileData.text s)
          else Option.none) = Option.none := hnf
      have hne : q ≠ splitPath relPath := by
        intro hh
        rw [if_pos (by simp [hh])] at hr
        exact absurd hr (by simp)
      rw [create_file_lookup_ne h2 q hne, mkdirParents_lookup h1]
      exact hq
  | bin b =>
      unfold runEntry at h
      have hr : (if (splitPath relPath == q) = true then some (FileData.bin b)
          else Option.none) = Option.none := hnf
      have hne : q ≠ splitPath relPath := by
        intro hh
        rw [if_pos (by simp [hh])] at hr
        exact absurd hr (by simp)
      rw [create_file_lookup_ne h q hne]
      exact hq

theorem runEntry_fixed {e : String × SValue} {fs fs' : FS} {q : FPath} {c : FileData}
    (h : runEntry fs e = Except.ok fs')
    (hf : entryLastFixed e q = some c) :
    lookupFile fs' q = some c := by
  obtain ⟨relPath, v⟩ := e
  cases v with
  | dir entries =>
      unfold runEntry at h
      obtain ⟨fs1, h1, h2⟩ := exbind_ok h
      exact runFiles_fixed h2 hf
  | text s =>
      unfold runEntry at h
      obtain ⟨fs1, h1, h2⟩ := exbind_ok h
      have hr : (if (splitPath relPath == q) = true then some (FileData.text s)
          else Option.none) = some c := hf
      by_cases hp : splitPath relPath = q
      · rw [if_pos (by simp [hp])] at hr
        rw [← hp, create_file_lookup_self h2]
        exact hr
      · rw [if_neg (by simp [hp])] at hr
        exact absurd hr (by simp)
  | bin b =>
      unfold runEntry at h
      have hr : (if (splitPath relPath == q) = true then some (FileData.bin b)
          else Option.none) = some c := hf
      by_cases hp : splitPath relPath = q
      · rw [if_pos (by simp [hp])] at hr
        rw [← hp, create_file_lookup_self h]
        exact hr
      · rw [if_neg (by simp [hp])] at hr
        exact absurd hr (by simp)

theorem runTable_preserve {es : List (String × SValue)} {fs fs' : FS} {q : FPath}
    {d : FileData}
    (h : runTable fs es = Except.ok fs')
    (hnf : tableLastFixed es q = Option.none)
    (hq : lookupFile fs q = some d) :
    lookupFile fs' q = some d := by
  induction es generalizing fs with
  | nil =>
      unfold runTable at h
      simp at h
      rw [← h]
      exact hq
  | cons e rest ih =>
      unfold runTable at h
      obtain ⟨fs1, h1, h2⟩ := exbind_ok h
      have hrest : tableLastFixed rest q = Option.none := by
        unfold tableLastFixed at hnf
        revert hnf
        cases tableLastFixed rest q
        · intro _; rfl
        · intro hh; exact absurd hh (by simp)
      have hhead : entryLastFixed e q = Option.none := by
        unfold tableLastFixed at hnf
        rw [hrest] at hnf
        exact hnf
      exact ih h2 hrest (runEntry_preserve h1 hhead hq)

theorem runTable_fixed {es : List (String × SValue)} {fs fs' : FS} {q : FPath}
    {c : FileData}
    (h : runTable fs es = Except.ok fs')
    (hf : tableLastFixed es q = some c) :
    lookupFile fs' q = some c := by
  induction es generalizing fs with
  | nil => exact absurd hf (by simp [tableLastFixed])
  | cons e rest ih =>
      unfold runTable at h
      obtain ⟨fs1, h1, h2⟩ := exbind_ok h
      by_cases hrest : ∃ d, tableLastFixed rest q = some d
      · obtain ⟨d, hd⟩ := hrest
        have : d = c := by
          unfold tableLastFixed at hf
          rw [hd] at hf
          exact Option.some.inj hf
        subst this
        exact ih h2 hd
      · have hnone : tableLastFixed rest q = Option.none := by
          revert hrest
          cases tableLastFixed rest q
          · intro _; rfl
          · intro hh; exact absurd ⟨_, rfl⟩ hh
        have hhead : entryLastFixed e q = some c := by
          unfold tableLastFixed at hf
          rw [hnone] at hf
          exact hf
        exact runTable_preserve h2 hnone (runEntry_fixed h1 hhead)

/-!
Lemmas about the three guarded steps after the table loop, and the
resulting facts about a whole run of `main`.
-/

theorem rawHeaderStep_skip {fs fs' : FS} {d : FileData}
    (hq : lookupFile fs rawCsvPath = some d) (hz : sizeIsZero d = false)
    (h : rawHeaderStep fs = Except.ok fs') : fs' = fs := by
  have h1 : pathExists fs rawCsvPath = true := by
    unfold pathExists isFile
    rw [hq]
    rfl
  have h2 : statSizeZero fs rawCsvPath = false := by
    unfold statSizeZero
    rw [hq]
    exact hz
  unfold rawHeaderStep at h
  rw [h1, h2] at h
  simp at h
  exact h.symm

theorem rawHeaderStep_lookup_ne {fs fs' : FS}
    (h : rawHeaderStep fs = Except.ok fs') (q : FPath) (hne : q ≠ rawCsvPath) :
    lookupFile fs' q = lookupFile fs q := by
  unfold rawHeaderStep at h
  by_cases hc : (!(pathExists fs rawCsvPath) || statSizeZero fs rawCsvPath) = true
  · rw [if_pos hc] at h
    exact create_file_lookup_ne h q hne
  · rw [if_neg hc] at h
    simp at h
    rw [h]

theorem processedHeaderStep_skip {fs fs' : FS} {d : FileData}
    (hq : lookupFile fs processedCsvPath = some d) (hz : sizeIsZero d = false)
    (h : processedHeaderStep fs = Except.ok fs') : fs' = fs := by
  have h1 : pathExists fs processedCsvPath = true := by
    unfold pathExists isFile
    rw [hq]
    rfl
  have h2 : statSizeZero fs processedCsvPath = false := by
    unfold statSizeZero
    rw [hq]
    exact hz
  unfold processedHeaderStep at h
  rw [h1, h2] at h
  simp at h
  exact h.symm

theorem processedHeaderStep_lookup_ne {fs fs' : FS}
    (h : processedHeaderStep fs = Except.ok fs') (q : FPath)
    (hne : q ≠ processedCsvPath) :
    lookupFile fs' q = lookupFile fs q := by
  unfold processedHeaderStep at h
  by_cases hc : (!(pathExists fs processedCsvPath) || statSizeZero fs processedCsvPath) = true
  · rw [if_pos hc] at h
    exact create_file_lookup_ne h q hne
  · rw [if_neg hc] at h
    simp at h
    rw [h]

theorem initPyStep_skip {fs fs' : FS}
    (hq : pathExists fs initPyPath = true)
    (h : initPyStep fs = Except.ok fs') : fs' = fs := by
  unfold initPyStep at h
  rw [hq] at h
  simp at h
  exact h.symm

theorem initPyStep_lookup_ne {fs fs' : FS}
    (h : initPyStep fs = Except.ok fs') (q : FPath) (hne : q ≠ initPyPath) :
    lookupFile fs' q = lookupFile fs q := by
  unfold initPyStep at h
  by_cases hc : (!(pathExists fs initPyPath)) = true
  · rw [if_pos hc] at h
    exact create_file_lookup_ne h q hne
  · rw [if_neg hc] at h
    simp at h
    rw [h]

theorem tableLastFixed_raw_none :
    tableLastFixed structureTable rawCsvPath = Option.none := by rfl

theorem tableLastFixed_processed_none :
    tableLastFixed structureTable processedCsvPath = Option.none := by rfl

theorem mainRun_preserve_guarded {fs fs' : FS} {d e : FileData}
    (h : mainRun fs = Except.ok fs')
    (hraw : lookupFile fs rawCsvPath = some d) (hdz : sizeIsZero d = false)
    (hproc : lookupFile fs processedCsvPath = some e) (hez : sizeIsZero e = false) :
    lookupFile fs' rawCsvPath = some d ∧
      lookupFile fs' processedCsvPath = some e := by
  unfold mainRun at h
  obtain ⟨fs1, h1, hr1⟩ := exbind_ok h
  obtain ⟨fs2, h2, hr2⟩ := exbind_ok hr1
  obtain ⟨fs3, h3, h4⟩ := exbind_ok hr2
  have hraw1 : lookupFile fs1 rawCsvPath = some d :=
    runTable_preserve h1 tableLastFixed_raw_none hraw
  have hproc1 : lookupFile fs1 processedCsvPath = some e :=
    runTable_preserve h1 tableLastFixed_processed_none hproc
  have hskip2 : fs2 = fs1 := rawHeaderStep_skip hraw1 hdz h2
  subst hskip2
  have hskip3 : fs3 = fs2 := processedHeaderStep_skip hproc1 hez h3
  subst hskip3
  constructor
  · rw [initPyStep_lookup_ne h4 rawCsvPath (by decide)]
    exact hraw1
  · rw [initPyStep_lookup_ne h4 processedCsvPath (by decide)]
    exact hproc1

theorem mainRun_fixed {fs fs' : FS} {q : FPath} {c : FileData}
    (h : mainRun fs = Except.ok fs')
    (hf : tableLastFixed structureTable q = some c) :
    lookupFile fs' q = some c := by
  unfold mainRun at h
  obtain ⟨fs1, h1, hr1⟩ := exbind_ok h
  obtain ⟨fs2, h2, hr2⟩ := exbind_ok hr1
  obtain ⟨fs3, h3, h4⟩ := exbind_ok hr2
  have hq1 : lookupFile fs1 q = some c := runTable_fixed h1 hf
  have hqraw : q ≠ rawCsvPath := by
    intro hh
    rw [hh, tableLastFixed_raw_none] at hf
    exact absurd hf (by simp)
  have hqproc : q ≠ processedCsvPath := by
    intro hh
    rw [hh, tableLastFixed_processed_none] at hf
    exact absurd hf (by simp)
  have hq2 : lookupFile fs2 q = some c := by
    rw [rawHeaderStep_lookup_ne h2 q hqraw]
    exact hq1
  have hq3 : lookupFile fs3 q = some c := by
    rw [processedHeaderStep_lookup_ne h3 q hqproc]
    exact hq2
  by_cases hip : q = initPyPath
  · subst hip
    have hex : pathExists fs3 initPyPath = true := by
      unfold pathExists isFile
      rw [hq3]
      rfl
    rw [initPyStep_skip hex h4]
    exact hq3
  · rw [initPyStep_lookup_ne h4 q hip]
    exact hq3

/-- Path of the first notebook file. -/
def nb1Path : FPath := ["notebooks", "01_data_cleaning_and_eda.ipynb"]

/-- The state after the first run with the first notebook overwritten by
hand, modelling an external modification between runs. -/
def tamperedFS : FS :=
  setFile fsAfterFirstRun nb1Path (FileData.text "tampered by hand")

/-- The state after re-running the materializer on the tampered tree. -/
def fsAfterTamperedRun : FS := extractOk (mainRun tamperedFS)

/-- C1: Running the materializer a second time leaves the two guarded data
files (data/raw/customer_shopping_behavior.csv and
data/processed/customer_cleaned.csv) byte-for-byte unchanged, provided
each was non-empty after the first run: the touch issued for the empty
descriptor never truncates an existing file, and the header-write step is
skipped whenever the file exists with nonzero size. -/
theorem c1_second_run_preserves_guarded_files (fs fs' : FS) (d e : FileData)
    (hrun : mainRun fs = Except.ok fs')
    (hraw : lookupFile fs rawCsvPath = some d) (hdz : sizeIsZero d = false)
    (hproc : lookupFile fs processedCsvPath = some e) (hez : sizeIsZero e = false) :
    lookupFile fs' rawCsvPath = some d ∧
      lookupFile fs' processedCsvPath = some e :=
  mainRun_preserve_guarded hrun hraw hdz hproc hez

theorem c1_second_run_preserves_guarded_files_witness :
    lookupFile fsAfterSecondRun rawCsvPath = some (FileData.text raw_csv_header) ∧
      lookupFile fsAfterSecondRun processedCsvPath =
        some (FileData.text cleaned_csv_header) :=
  c1_second_run_preserves_guarded_files fsAfterFirstRun fsAfterSecondRun
    (FileData.text raw_csv_header) (FileData.text cleaned_csv_header)
    rfl rfl rfl rfl rfl

/-- C2: Starting from an empty target root, `main` succeeds and afterwards
every relative path listed in the structure descriptor exists under the
root.  Directories exist before any file is written into them: in this
model a write or touch into a missing directory fails the whole run (as
the corresponding Python calls raise), so the success of `mainRun` proves
the ordering, and the last two conjuncts record that the write operations
demand an existing parent directory. -/
theorem c2_all_descriptor_paths_exist :
    mainRun emptyFS = Except.ok fsAfterFirstRun ∧
    descriptorPaths.all (fun p => pathExists fsAfterFirstRun p) = true ∧
    (∀ fs p d fs2, writeFile fs p d = Except.ok fs2 →
      isDir fs (parentOf p) = true) ∧
    (∀ fs p fs2, touch fs p = Except.ok fs2 →
      isDir fs (parentOf p) = true ∨ isDir fs p = true) := by
  refine ⟨rfl, rfl, ?_, ?_⟩
  · intro fs p d fs2 h
    unfold writeFile at h
    by_cases h1 : isDir fs p = true
    · rw [if_pos h1] at h
      exact absurd h (by simp)
    · rw [if_neg h1] at h
      by_cases h2 : (!(isDir fs (parentOf p))) = true
      · rw [if_pos h2] at h
        exact absurd h (by simp)
      · simp at h2
        exact h2
  · intro fs p fs2 h
    unfold touch at h
    by_cases h1 : isDir fs p = true
    · exact Or.inr h1
    · rw [if_neg h1] at h
      by_cases h2 : (!(isDir fs (parentOf p))) = true
      · rw [if_pos h2] at h
        exact absurd h (by simp)
      · simp at h2
        exact Or.inl h2

theorem c2_all_descriptor_paths_exist_witness :
    isDir fsAfterFirstRun (parentOf ["notebooks", "extra.txt"]) = true :=
  c2_all_descriptor_paths_exist.2.2.1 fsAfterFirstRun ["notebooks", "extra.txt"]
    (FileData.text "")
    (setFile fsAfterFirstRun ["notebooks", "extra.txt"] (FileData.text "")) rfl

/-- C3: After a run from an empty root the raw CSV holds exactly the
documented header line followed by a newline, and the processed CSV holds
the same header with a single added trailing cleaned_flag column; both
files are zero-length right after the tree loop (first creation) and are
filled by the header-write steps. -/
theorem c3_csv_header_contents :
    runTable emptyFS structureTable = Except.ok fsMid ∧
    lookupFile fsMid rawCsvPath = some (FileData.text "") ∧
    lookupFile fsMid processedCsvPath = some (FileData.text "") ∧
    mainRun emptyFS = Except.ok fsAfterFirstRun ∧
    lookupFile fsAfterFirstRun rawCsvPath = some (FileData.text raw_csv_header) ∧
    lookupFile fsAfterFirstRun processedCsvPath =
      some (FileData.text cleaned_csv_header) ∧
    raw_csv_header =
      "customer_id,visit_date,product_id,category,quantity,price,total_spent" ++ "\n" ∧
    cleaned_csv_header =
      "customer_id,visit_date,product_id,category,quantity,price,total_spent" ++
        ",cleaned_flag" ++ "\n" :=
  ⟨rfl, rfl, rfl, rfl, rfl, rfl, rfl, rfl⟩

/-- C4: For every templated-notebook, literal-text or literal-binary entry
of the descriptor (a path with a fixed write, whose last fixed content is
`c`) and for every prior state of the tree, a successful run of `main`
leaves that file containing exactly the fixed content `c`: the overwrite
is unconditional and not content-preserving. -/
theorem c4_rerun_overwrites_fixed_content (fs fs' : FS) (p : FPath) (c : FileData)
    (hrun : mainRun fs = Except.ok fs')
    (hfix : tableLastFixed structureTable p = some c) :
    lookupFile fs' p = some c :=
  mainRun_fixed hrun hfix

theorem c4_rerun_overwrites_fixed_content_witness :
    tamperedFS = setFile fsAfterFirstRun nb1Path (FileData.text "tampered by hand") ∧
      lookupFile fsAfterTamperedRun nb1Path = some (FileData.nb nb_skeleton) :=
  ⟨rfl, c4_rerun_overwrites_fixed_content tamperedFS fsAfterTamperedRun nb1Path
    (FileData.nb nb_skeleton) rfl rfl⟩

/-- C5: After any successful run, every notebook file produced from a
"notebook" descriptor entry holds the serialized skeleton document, whose
nbformat is 4, whose nbformat_minor is 5, and whose cell list is exactly
one markdown cell. -/
theorem c5_notebook_files (fs fs' : FS) (hrun : mainRun fs = Except.ok fs') :
    notebookPaths.all
        (fun p => lookupFile fs' p == some (FileData.nb nb_skeleton)) = true ∧
    nb_skeleton.nbformat = 4 ∧ nb_skeleton.nbformat_minor = 5 ∧
    nb_skeleton.cells.map NbCell.cell_type = ["markdown"] := by
  refine ⟨?_, rfl, rfl, rfl⟩
  have h1 := mainRun_fixed hrun
    (show tableLastFixed structureTable ["notebooks", "01_data_cleaning_and_eda.ipynb"]
      = some (FileData.nb nb_skeleton) from rfl)
  have h2 := mainRun_fixed hrun
    (show tableLastFixed structureTable ["notebooks", "02_advanced_analytics.ipynb"]
      = some (FileData.nb nb_skeleton) from rfl)
  have h3 := mainRun_fixed hrun
    (show tableLastFixed structureTable ["notebooks", "03_predictive_modeling.ipynb"]
      = some (FileData.nb nb_skeleton) from rfl)
  have h4 := mainRun_fixed hrun
    (show tableLastFixed structureTable ["notebooks", "04_statistical_analysis.ipynb"]
      = some (FileData.nb nb_skeleton) from rfl)
  have hnp : notebookPaths = [
      ["notebooks", "01_data_cleaning_and_eda.ipynb"],
      ["notebooks", "02_advanced_analytics.ipynb"],
      ["notebooks", "03_predictive_modeling.ipynb"],
      ["notebooks", "04_statistical_analysis.ipynb"]] := rfl
  rw [hnp]
  simp [List.all_cons, h1, h2, h3, h4]

theorem c5_notebook_files_witness :
    notebookPaths.all
        (fun p => lookupFile fsAfterFirstRun p == some (FileData.nb nb_skeleton)) = true ∧
    nb_skeleton.nbformat = 4 ∧ nb_skeleton.nbformat_minor = 5 ∧
    nb_skeleton.cells.map NbCell.cell_type = ["markdown"] :=
  c5_notebook_files emptyFS fsAfterFirstRun rfl

/-- C6: The command-line entry point exits with code 0 when `main`
completes, and for any exception raised during tree creation it prints an
error message with the fixed prefix and exits with code 1; no exception
terminates the process without the message and the exit code. -/
theorem c6_exit_codes (fs : FS) :
    (∃ r, mainRun fs = Except.ok r ∧ runScript fs = (0, [])) ∨
    (∃ e, mainRun fs = Except.error e ∧
      runScript fs = (1, ["❌ Error while creating project: " ++ e])) := by
  cases h : mainRun fs with
  | ok r =>
      refine Or.inl ⟨r, rfl, ?_⟩
      unfold runScript
      rw [h]
  | error e =>
      refine Or.inr ⟨e, rfl, ?_⟩
      unfold runScript
      rw [h]

/-- An environment in which every external database operation fails. -/
def envFail : DBEnv :=
  ⟨fun _ => Except.error "create-engine failed",
   fun _ _ => Except.error "read failed",
   fun _ _ _ _ => Except.error "write failed",
   fun _ => ()⟩

/-- An environment in which every external database operation succeeds. -/
def envOk : DBEnv :=
  ⟨fun s => Except.ok (Engine.mk s),
   fun _ _ => Except.ok (DataFrame.mk []),
   fun _ _ _ _ => Except.ok (),
   fun _ => ()⟩

/-- The connection object built by the example usage block of the source. -/
def dbLocal : DatabaseConnection :=
  DatabaseConnection.init "localhost" "root" "icandoit5@A" "customer_analytics" 3306

/-- A connection object whose engine has already been created. -/
def dbConnected : DatabaseConnection :=
  { dbLocal with engine := some (Engine.mk (connString dbLocal)) }

/-- C7: For every query string (including malformed SQL), when the
underlying read fails `execute_query` returns an empty DataFrame and logs
the error instead of raising; `create_connection` returns None when engine
creation fails; and a failed load is caught and logged.  No exception
propagates past the helper's methods: each method is a total function
into plain result values. -/
theorem c7_helper_error_sentinels (env : DBEnv) (db : DatabaseConnection)
    (q tbl ie e : String) (df : DataFrame) :
    (env.read_sql q (ensureEngine env db).1.engine = Except.error e →
      (execute_query env db q).2.1 = DataFrame.mk [] ∧
      (execute_query env db q).2.2 =
        (ensureEngine env db).2 ++ ["❌ Error executing query: " ++ e]) ∧
    (env.create_engine (connString db) = Except.error e →
      (create_connection env db).2.1 = Option.none) ∧
    (env.to_sql df tbl (ensureEngine env db).1.engine ie = Except.error e →
      (load_dataframe_to_db env db df tbl ie).2 =
        (ensureEngine env db).2 ++ ["❌ Error loading data: " ++ e]) := by
  refine ⟨?_, ?_, ?_⟩
  · intro h
    simp only [execute_query]
    rw [h]
    exact ⟨rfl, rfl⟩
  · intro h
    unfold create_connection
    rw [h]
  · intro h
    simp only [load_dataframe_to_db]
    rw [h]

theorem c7_helper_error_sentinels_witness :
    (execute_query envFail dbLocal "SELEC owner FROM").2.1 = DataFrame.mk [] ∧
    (create_connection envFail dbLocal).2.1 = Option.none ∧
    (load_dataframe_to_db envFail dbLocal (DataFrame.mk []) "customers" "replace").2 =
      (ensureEngine envFail dbLocal).2 ++ ["❌ Error loading data: write failed"] :=
  ⟨((c7_helper_error_sentinels envFail dbLocal "SELEC owner FROM" "customers"
      "replace" "read failed" (DataFrame.mk [])).1 rfl).1,
   (c7_helper_error_sentinels envFail dbLocal "SELEC owner FROM" "customers"
      "replace" "create-engine failed" (DataFrame.mk [])).2.1 rfl,
   (c7_helper_error_sentinels envFail dbLocal "SELEC owner FROM" "customers"
      "replace" "write failed" (DataFrame.mk [])).2.2 rfl⟩

/-- C8: `load_dataframe_to_db` with a zero-row DataFrame does not raise
(it is a total function) and, when the underlying write succeeds, prints
the success message and a row count of 0. -/
theorem c8_load_zero_rows (env : DBEnv) (db : DatabaseConnection) (tbl ie : String)
    (eng : Engine) (heng : db.engine = some eng)
    (hok : env.to_sql (DataFrame.mk []) tbl (some eng) ie = Except.ok ()) :
    load_dataframe_to_db env db (DataFrame.mk []) tbl ie =
      (db, ["✅ Data loaded to table \x27" ++ tbl ++ "\x27 successfully!",
            "   Rows loaded: 0"]) := by
  simp only [load_dataframe_to_db, ensureEngine, heng, hok]
  rfl

theorem c8_load_zero_rows_witness :
    load_dataframe_to_db envOk dbConnected (DataFrame.mk []) "customers" "replace" =
      (dbConnected,
        ["✅ Data loaded to table \x27customers\x27 successfully!",
         "   Rows loaded: 0"]) :=
  c8_load_zero_rows envOk dbConnected "customers" "replace"
    (Engine.mk (connString dbLocal)) rfl rfl

/-- C9: The connection-string preview printed by `create_connection` is
identical for any two password values (the password position holds the
literal <hidden>), even though the connection string handed to the engine
embeds the percent-encoded password; the printed preview therefore does
not reveal the password. -/
theorem c9_preview_hides_password (env : DBEnv) (host user pw1 pw2 database : String)
    (port : Nat) (eng : Option Engine) :
    connPreview ⟨host, user, pw1, database, port, eng⟩ =
      connPreview ⟨host, user, pw2, database, port, eng⟩ ∧
    (create_connection env ⟨host, user, pw1, database, port, eng⟩).2.2.head? =
      (create_connection env ⟨host, user, pw2, database, port, eng⟩).2.2.head? ∧
    connPreview ⟨host, user, pw1, database, port, eng⟩ =
      "\n🔗 Connection string preview: mysql+pymysql://" ++ user ++ ":<hidden>@" ++
        host ++ ":" ++ natStr port ++ "/" ++ database ∧
    connString ⟨host, user, pw1, database, port, eng⟩ =
      "mysql+pymysql://" ++ user ++ ":" ++ quote_plus pw1 ++ "@" ++ host ++ ":" ++
        natStr port ++ "/" ++ database := by
  refine ⟨rfl, ?_, rfl, rfl⟩
  unfold create_connection
  cases env.create_engine (connString ⟨host, user, pw1, database, port, eng⟩) with
  | ok a =>
      cases env.create_engine (connString ⟨host, user, pw2, database, port, eng⟩) with
      | ok b => rfl
      | error e2 => rfl
  | error e1 =>
      cases env.create_engine (connString ⟨host, user, pw2, database, port, eng⟩) with
      | ok b => rfl
      | error e2 => rfl

/-- C10: `close_connection` on a helper whose engine was never created is
a no-op: it does not raise, prints nothing, and returns the object with
every field unchanged. -/
theorem c10_close_without_engine (env : DBEnv) (db : DatabaseConnection)
    (h : db.engine = Option.none) :
    close_connection env db = (db, []) := by
  unfold close_connection
  rw [h]

theorem c10_close_without_engine_witness :
    close_connection envOk dbLocal = (dbLocal, []) :=
  c10_close_without_engine envOk dbLocal rfl
